import Mathlib

/-
Verification of the resilience / resource-management core of food_araise:
the local-model lifecycle manager and response normalizer
(`app/core/local_intelligence.py`), the rate-limited / retried / cached
search client (`app/core/search.py`), and the tiered failover dispatcher
(`app/core/vision.py`, modelled from the spec and its tests since the file
itself is absent from the sources).

Machine-level conventions: Python dictionaries and JSON documents are
modelled by the inductive `JVal`; `json.loads` is modelled by `jsonLoads`,
an executable recursive-descent reader covering the JSON subset these
modules exchange (objects, arrays, strings with the common escapes,
integers, booleans, null); real-valued times and intervals are modelled by
the rationals.
-/

namespace FoodAraise

/-- Model of a parsed JSON document / Python dict value. -/
inductive JVal where
  | jstr : String → JVal
  | jnum : Int → JVal
  | jbool : Bool → JVal
  | jnull : JVal
  | jarr : List JVal → JVal
  | jobj : List (String × JVal) → JVal

/-- Opening-brace character (codepoint 123). -/
def lbrace : Char := Char.ofNat 123

/-- Closing-brace character (codepoint 125). -/
def rbrace : Char := Char.ofNat 125

/-- Drop leading JSON whitespace. -/
def skipWs : List Char → List Char
  | [] => []
  | c :: rest =>
    if c = ' ' ∨ c = '\n' ∨ c = '\t' ∨ c = '\r' then skipWs rest else c :: rest

/-- Table of the single-letter JSON string escapes (escape letter paired
with the character it decodes to); `\uXXXX` is outside the modelled
subset. -/
def escTable : List (Char × Char) :=
  [('"', '"'), ('\\', '\\'), ('/', '/'), ('n', '\n'), ('t', '\t'), ('r', '\r'),
   ('b', Char.ofNat 8), ('f', Char.ofNat 12)]

/-- Decode one JSON string escape character via the table. -/
def escChar (c : Char) : Option Char :=
  (escTable.find? (fun p => p.1 == c)).map (fun p => p.2)

/-- Read the body of a JSON string literal (opening quote already consumed),
returning the decoded characters and the remaining input. -/
def readStrBody : List Char → Option (List Char × List Char)
  | [] => none
  | c :: rest =>
    if c = '"' then some ([], rest)
    else if c = '\\' then
      match rest with
      | [] => none
      | e :: r2 =>
        match escChar e with
        | none => none
        | some d =>
          match readStrBody r2 with
          | none => none
          | some (s, r) => some (d :: s, r)
    else
      match readStrBody rest with
      | none => none
      | some (s, r) => some (c :: s, r)

/-- Split a maximal run of ASCII digits off the front of the input. -/
def takeDigits : List Char → List Char × List Char
  | [] => ([], [])
  | c :: rest =>
    if c.isDigit then
      let (ds, r) := takeDigits rest
      (c :: ds, r)
    else ([], c :: rest)

/-- Decimal digits to a natural number. -/
def digitsToNat (ds : List Char) : Nat :=
  ds.foldl (fun n c => 10 * n + (c.toNat - 48)) 0

/-- True when the characters continue a non-integer numeric literal
(fraction or exponent), which this integer-subset reader rejects. -/
def numContinues : List Char → Bool
  | c :: _ => c = '.' ∨ c = 'e' ∨ c = 'E'
  | [] => false

/-- Bundle of the three mutually recursive JSON readers at a given fuel:
one for a value, one for the fields of an object (opening brace consumed),
one for the elements of an array (opening bracket consumed). -/
structure ParseFns where
  val : List Char → Option (JVal × List Char)
  fields : List Char → Option (List (String × JVal) × List Char)
  elems : List Char → Option (List JVal × List Char)

/-- Fuel-indexed recursive-descent JSON reader; structural recursion on the
fuel so that the kernel can evaluate it. -/
def parserAt : Nat → ParseFns
  | 0 => ⟨fun _ => none, fun _ => none, fun _ => none⟩
  | fuel + 1 =>
    let p := parserAt fuel
    { val := fun l =>
        match skipWs l with
        | [] => none
        | c :: rest =>
          if c = lbrace then
            match skipWs rest with
            | [] => none
            | d :: r2 =>
              if d = rbrace then some (.jobj [], r2)
              else
                match p.fields (d :: r2) with
                | none => none
                | some (fs, r3) => some (.jobj fs, r3)
          else if c = '[' then
            match skipWs rest with
            | [] => none
            | d :: r2 =>
              if d = ']' then some (.jarr [], r2)
              else
                match p.elems (d :: r2) with
                | none => none
                | some (es, r3) => some (.jarr es, r3)
          else if c = '"' then
            match readStrBody rest with
            | none => none
            | some (s, r2) => some (.jstr (String.mk s), r2)
          else if c = 't' then
            match rest with
            | 'r' :: 'u' :: 'e' :: r2 => some (.jbool true, r2)
            | _ => none
          else if c = 'f' then
            match rest with
            | 'a' :: 'l' :: 's' :: 'e' :: r2 => some (.jbool false, r2)
            | _ => none
          else if c = 'n' then
            match rest with
            | 'u' :: 'l' :: 'l' :: r2 => some (.jnull, r2)
            | _ => none
          else if c = '-' then
            match takeDigits rest with
            | ([], _) => none
            | (ds, r2) =>
              if numContinues r2 then none
              else some (.jnum (-(Int.ofNat (digitsToNat ds))), r2)
          else if c.isDigit then
            match takeDigits (c :: rest) with
            | (ds, r2) =>
              if numContinues r2 then none
              else some (.jnum (Int.ofNat (digitsToNat ds)), r2)
          else none,
      fields := fun l =>
        match skipWs l with
        | '"' :: rest =>
          match readStrBody rest with
          | none => none
          | some (k, r2) =>
            match skipWs r2 with
            | ':' :: r3 =>
              match p.val r3 with
              | none => none
              | some (v, r4) =>
                match skipWs r4 with
                | [] => none
                | d :: r5 =>
                  if d = ',' then
                    match p.fields r5 with
                    | none => none
                    | some (fs, r6) => some ((String.mk k, v) :: fs, r6)
                  else if d = rbrace then some ([(String.mk k, v)], r5)
                  else none
            | _ => none
        | _ => none,
      elems := fun l =>
        match p.val l with
        | none => none
        | some (v, r) =>
          match skipWs r with
          | ',' :: r2 =>
            match p.elems r2 with
            | none => none
            | some (es, r3) => some (v :: es, r3)
          | ']' :: r2 => some ([v], r2)
          | _ => none }

/-- Model of Python `json.loads` on the integer-subset grammar: the whole
input (up to trailing whitespace) must be one JSON value. -/
def jsonLoads (l : List Char) : Option JVal :=
  match (parserAt (2 * l.length + 2)).val l with
  | some (v, rest) => if skipWs rest = [] then some v else none
  | none => none

/-- Model of Python `str.find(c)`: index of the first occurrence, if any
(Python returns -1 for "absent"; the `Option` carries that distinction). -/
def pyFindIdx (c : Char) (l : List Char) : Option Nat :=
  l.findIdx? (· = c)

/-- Model of Python `str.rfind(c)`: index of the last occurrence, if any. -/
def pyRfindIdx (c : Char) (l : List Char) : Option Nat :=
  match pyFindIdx c l.reverse with
  | some i => some (l.length - 1 - i)
  | none => none

/-- Model of the Python slice `l[a:b]` for nonnegative bounds. -/
def pySlice (l : List Char) (a b : Nat) : List Char :=
  (l.take b).drop a

/-- Degraded result built by `_parse_local_response` when no valid JSON was
found: first 200 characters of the raw output plus "...", and a note. -/
def parseLocalFallback (content : List Char) : JVal :=
  .jobj [("overall_description", .jstr (String.mk (content.take 200) ++ "...")),
         ("total_calories_estimate", .jstr "Estimated"),
         ("items", .jarr []),
         ("note", .jstr "Raw output returned due to parsing error.")]

/-- End bound used by `_parse_local_response`: Python computes
`end = content.rfind(rbrace) + 1`, which is 0 when rfind returns -1. -/
def braceEnd (content : List Char) : Nat :=
  match pyRfindIdx rbrace content with
  | some r => r + 1
  | none => 0

/-- Model of `LocalIntelligenceClient._parse_local_response`: slice from the
first opening brace to one past the last closing brace, try `json.loads`,
and on any failure return the degraded fallback result. Python guards on
`start != -1 and end != -1`; since `end = rfind + 1` can never equal -1,
the guard is equivalent to the first brace existing. -/
def _parse_local_response (content : List Char) : JVal :=
  match pyFindIdx lbrace content with
  | none => parseLocalFallback content
  | some start =>
    match jsonLoads (pySlice content start (braceEnd content)) with
    | some v => v
    | none => parseLocalFallback content

/-! Local model lifecycle manager (`app/core/local_intelligence.py`). -/

/-- Tier of the local model requested from `_load_model`. -/
inductive ModelType where
  | light
  | heavy
deriving DecidableEq

/-- Record of a constructed llama_cpp engine: the construction parameters
passed by `_load_model` to `Llama(...)`. -/
structure Engine where
  model_path : String
  n_ctx : Nat
  n_gpu_layers : Nat
  verbose : Bool
deriving DecidableEq

/-- Mutable model slots of `LocalIntelligenceClient`. -/
structure LIState where
  light_model : Option Engine
  heavy_model : Option Engine
deriving DecidableEq

/-- State of a freshly constructed client: no model is loaded at init. -/
def initState : LIState := ⟨none, none⟩

/-- Environment oracle for one `_load_model` call: the outcome of
`_get_model_path` per tier (the downloaded artifact path, or the error it
raises), and whether engine construction (`Llama(...)`, and for the light
tier also the chat handler) succeeds. -/
structure LoadEnv where
  light_path : Except String String
  heavy_path : Except String String
  light_construct_ok : Bool
  heavy_construct_ok : Bool

/-- Model of `LocalIntelligenceClient._load_model`: a no-op when the
requested tier is already resident; otherwise the opposite slot is set to
None first, then the artifact is resolved and the engine constructed with
the tier's fixed parameters (light: n_ctx 2048, heavy: n_ctx 4096). The
returned state reflects the mutations performed even when the call raises
(second component `.error`). -/
def _load_model (env : LoadEnv) (s : LIState) : ModelType → LIState × Except String Unit
  | .light =>
    if s.light_model.isSome then (s, .ok ())
    else
      let s1 : LIState := { s with heavy_model := none }
      match env.light_path with
      | .error e => (s1, .error e)
      | .ok path =>
        if env.light_construct_ok then
          ({ s1 with light_model := some ⟨path, 2048, 0, false⟩ }, .ok ())
        else (s1, .error "engine construction failed")
  | .heavy =>
    if s.heavy_model.isSome then (s, .ok ())
    else
      let s1 : LIState := { s with light_model := none }
      match env.heavy_path with
      | .error e => (s1, .error e)
      | .ok path =>
        if env.heavy_construct_ok then
          ({ s1 with heavy_model := some ⟨path, 4096, 0, true⟩ }, .ok ())
        else (s1, .error "engine construction failed")

/-- Tier selected by `analyze_image`: heavy iff `deep_search`. -/
def targetTier (deep_search : Bool) : ModelType :=
  if deep_search then .heavy else .light

/-- Emergency fallback dict returned by `analyze_image` when the engine's
chat-completion call (or anything else inside its try block) raises. -/
def emergencyFallback : JVal :=
  .jobj [("overall_description", .jstr "Error in local analysis."),
         ("total_calories_estimate", .jstr "Unknown"),
         ("items", .jarr [.jobj [("name", .jstr "Unidentified"),
                                 ("nutrition", .jobj []),
                                 ("description", .jstr "Analysis failed")]])]

/-- Model of `LocalIntelligenceClient.analyze_image`: load the tier matching
`deep_search`, then run the engine's chat completion (outcome given by the
`inference` oracle: raw content text, or the exception it raises). A load
failure propagates; an inference failure is swallowed and mapped to
`emergencyFallback`; otherwise the raw content is normalized by
`_parse_local_response`. -/
def analyze_image (env : LoadEnv) (inference : Except String String) (s : LIState)
    (deep_search : Bool) : LIState × Except String JVal :=
  let p := _load_model env s (targetTier deep_search)
  match p.2 with
  | .error e => (p.1, .error e)
  | .ok _ =>
    match inference with
    | .error _ => (p.1, .ok emergencyFallback)
    | .ok content => (p.1, .ok (_parse_local_response content.data))

/-- Single-slot residency: at most one of the two model slots is occupied. -/
def atMostOneResident (s : LIState) : Prop :=
  s.light_model = none ∨ s.heavy_model = none

instance (s : LIState) : Decidable (atMostOneResident s) := by
  unfold atMostOneResident; infer_instance

/-- One call against the client, with its own environment oracles. -/
inductive LIOp where
  | loadOp (t : ModelType) (env : LoadEnv)
  | analyzeOp (deep_search : Bool) (env : LoadEnv) (inference : Except String String)

/-- State reached after one client call (errors leave their partial state). -/
def stepOp (s : LIState) : LIOp → LIState
  | .loadOp t env => (_load_model env s t).1
  | .analyzeOp d env inf => (analyze_image env inf s d).1

/-- State reached after a sequence of `_load_model` / `analyze_image` calls
against a freshly constructed client. -/
def execOps (ops : List LIOp) : LIState :=
  ops.foldl stepOp initState

/-! Tiered failover dispatcher (`app/core/vision.py`). -/

/-- Model of fastapi's HTTPException payload. -/
structure HTTPExceptionModel where
  status_code : Nat
  detail : String
deriving DecidableEq

/-- Modelled from the spec: `analyze_food_image_with_search` in
`app/core/vision.py` is not among the sources (only its tests and callers
are). Per the spec's TieredFailoverDispatcher and `tests/test_failsafe.py`:
attempt the primary (cloud) path; on any exception fall back to
`local_client.analyze_image(image, deep_search=deep_search)` with the very
same quality flag; if the fallback also raises, fail the request with
HTTPException(status_code=500, detail containing "All AI systems failed").
The primary outcome and the local path's oracles are parameters. -/
def analyze_food_image_with_search (primary : Except String JVal) (env : LoadEnv)
    (inference : Except String String) (s : LIState) (deep_search : Bool) :
    LIState × Except HTTPExceptionModel JVal :=
  match primary with
  | .ok v => (s, .ok v)
  | .error _ =>
    let p := analyze_image env inference s deep_search
    match p.2 with
    | .ok v => (p.1, .ok v)
    | .error _ => (p.1, .error ⟨500, "All AI systems failed"⟩)

/-! Rate-limited, retried, cached search client (`app/core/search.py`). -/

/-- Configuration of `SerpAPIWrapper` after `__init__` (which clamps
`min_interval` to ≥ 0, `max_retries` to ≥ 0 and `backoff_factor` to ≥ 1). -/
structure SerpAPIWrapperCfg where
  api_key : Option String
  min_interval : ℚ
  max_retries : Nat
  backoff_factor : ℚ

/-- Outcome of one outbound `client.get` attempt: a transport-level
exception, or an HTTP response with a status code and parsed JSON body. -/
inductive HttpOutcome where
  | transportError (msg : String)
  | response (status : Nat) (body : JVal)

/-- Observable side effects of one `search_food_info` call: how many times
`_throttle` ran, how many outbound network attempts were issued, and the
durations of the `asyncio.sleep(backoff)` calls made after 429 responses. -/
structure CallTrace where
  throttle_calls : Nat
  net_attempts : Nat
  backoff_sleeps : List ℚ
deriving DecidableEq

/-- Message of the `HTTPStatusError` raised by `response.raise_for_status()`
(modelled up to its status code). -/
def statusErrMsg (code : Nat) : String :=
  "HTTP status error " ++ toString code

/-- Model of the retry loop inside `search_food_info`, indexed first by the
number of retries remaining (`cfg.max_retries` at entry). Each iteration
throttles then issues one GET (`oracle attempt`); a 429 with retries left
multiplies the backoff by `backoff_factor`, sleeps that long and retries;
a 429 with no retries left (Python then calls `raise_for_status`), any
other ≥ 400 status, and any transport error all propagate out of the loop
as an error. The single Python loop body appears here once for the final
attempt and once for attempts with retry budget. -/
def retryLoop (cfg : SerpAPIWrapperCfg) (oracle : Nat → HttpOutcome) :
    Nat → Nat → ℚ → Except String JVal × CallTrace
  | 0, attempt, _ =>
    match oracle attempt with
    | .transportError msg => (.error msg, ⟨1, 1, []⟩)
    | .response status body =>
      if status = 429 then (.error (statusErrMsg 429), ⟨1, 1, []⟩)
      else if 400 ≤ status then (.error (statusErrMsg status), ⟨1, 1, []⟩)
      else (.ok body, ⟨1, 1, []⟩)
  | r + 1, attempt, backoff =>
    match oracle attempt with
    | .transportError msg => (.error msg, ⟨1, 1, []⟩)
    | .response status body =>
      if status = 429 then
        let b := backoff * cfg.backoff_factor
        let p := retryLoop cfg oracle r (attempt + 1) b
        (p.1, ⟨p.2.throttle_calls + 1, p.2.net_attempts + 1, b :: p.2.backoff_sleeps⟩)
      else if 400 ≤ status then (.error (statusErrMsg status), ⟨1, 1, []⟩)
      else (.ok body, ⟨1, 1, []⟩)

/-- Python `res.get(k)` on the projection fields: the value, or None. -/
def jgetOrNull (fields : List (String × JVal)) (k : String) : JVal :=
  match fields.lookup k with
  | some v => v
  | none => .jnull

/-- Snippet built from one organic-result dict: exactly the three fields
title, snippet, link, each read with `res.get` (None when absent). -/
def projFields (fields : List (String × JVal)) : JVal :=
  .jobj [("title", jgetOrNull fields "title"),
         ("snippet", jgetOrNull fields "snippet"),
         ("link", jgetOrNull fields "link")]

/-- Projection of one organic result; a non-dict entry makes `res.get`
raise AttributeError. -/
def projOrganicResult : JVal → Except String JVal
  | .jobj fields => .ok (projFields fields)
  | _ => .error "AttributeError: res.get"

/-- The for-loop of the result-shaping block: project each organic result
in order, propagating the first exception. -/
def projList : List JVal → Except String (List JVal)
  | [] => .ok []
  | r :: rs =>
    match projOrganicResult r with
    | .error e => .error e
    | .ok v =>
      match projList rs with
      | .error e => .error e
      | .ok vs => .ok (v :: vs)

/-- Model of the result-shaping block of `search_food_info`: keep only the
knowledge_graph block (default empty dict) and the first 3 organic results
reduced to {title, snippet, link}; a payload of the wrong shape raises
(caught further out by the generic except). -/
def shapeResults : JVal → Except String JVal
  | .jobj fields =>
    let kg := (fields.lookup "knowledge_graph").getD (.jobj [])
    match fields.lookup "organic_results" with
    | none => .ok (.jobj [("snippets", .jarr []), ("knowledge_graph", kg)])
    | some (.jarr rs) =>
      match projList (rs.take 3) with
      | .ok ss => .ok (.jobj [("snippets", .jarr ss), ("knowledge_graph", kg)])
      | .error e => .error e
    | some _ => .error "TypeError: organic_results is not a list"
  | _ => .error "AttributeError: data.get"

/-- Model of the body of `SerpAPIWrapper.search_food_info` (the un-cached
coroutine): short-circuit when no API key is configured; otherwise run the
throttled retry loop starting with backoff = `min_interval` and
`max_retries` retries left, shape a successful payload, and turn every
exception into an `error` dict (the function never raises). -/
def search_food_info (cfg : SerpAPIWrapperCfg) (oracle : Nat → HttpOutcome)
    (query : String) : JVal × CallTrace :=
  if cfg.api_key.isNone then
    (.jobj [("error", .jstr "API Key missing")], ⟨0, 0, []⟩)
  else
    match retryLoop cfg oracle cfg.max_retries 0 cfg.min_interval with
    | (.ok data, tr) =>
      match shapeResults data with
      | .ok v => (v, tr)
      | .error e => (.jobj [("error", .jstr e)], tr)
    | (.error e, tr) => (.jobj [("error", .jstr e)], tr)

/-- True of the dicts `search_food_info` returns on failure (an object whose
first field is "error"); the success projection never has this shape. -/
def isErrorResult : JVal → Bool
  | .jobj ((k, _) :: _) => k = "error"
  | _ => false

/-- Memoization cache of the `alru_cache(maxsize=128)` wrapper, most
recently used first. -/
abbrev SearchCache := List (String × JVal)

/-- Model of the `alru_cache(maxsize=128)` wrapper around
`search_food_info`: a hit returns the stored value (marking it most
recently used) and runs none of the body — no throttle, no network; a miss
runs the body and stores whatever dict it returned, evicting the least
recently used entry beyond capacity 128. The wrapped coroutine never
raises, so the no-exception-caching rule of alru_cache never applies. -/
def cachedSearch (cfg : SerpAPIWrapperCfg) (oracle : Nat → HttpOutcome)
    (cache : SearchCache) (query : String) : JVal × SearchCache × CallTrace :=
  match cache.lookup query with
  | some v => (v, (query, v) :: cache.filter (fun p => ¬ p.1 = query), ⟨0, 0, []⟩)
  | none =>
    let (v, tr) := search_food_info cfg oracle query
    (v, ((query, v) :: cache).take 128, tr)

/-- Model of `SerpAPIWrapper._throttle` on an idealized monotonic clock:
under the lock, compute `wait = min_interval - (now - last)`, sleep `wait`
if positive, and stamp `_last_request_ts` with the current time; the stamp
is the moment the attempt is issued. -/
def throttleStamp (min_interval last now : ℚ) : ℚ :=
  let wait := min_interval - (now - last)
  if 0 < wait then now + wait else now

/-- Issue times of a sequence of throttled outbound attempts through one
client instance: before every attempt `_throttle` runs (the lock serializes
callers), and between one attempt and the next throttle acquisition the
clock advances by an arbitrary caller-dependent delay taken from `ds`
(request latency, backoff sleeps, other work). -/
def throttleTimes (min_interval : ℚ) : ℚ → ℚ → List ℚ → List ℚ
  | _, _, [] => []
  | last, now, d :: ds =>
    let t := throttleStamp min_interval last now
    t :: throttleTimes min_interval t (t + d) ds

/-- Backoff sleep durations of `n` consecutive 429 retries starting from
backoff `b`: the code multiplies by the factor before each sleep. -/
def backoffSchedule (b f : ℚ) : Nat → List ℚ
  | 0 => []
  | n + 1 => (b * f) :: backoffSchedule (b * f) f n

/-- Load environment in which both artifacts resolve and both engines
construct. -/
def envAllOk : LoadEnv :=
  ⟨.ok "light.gguf", .ok "heavy.gguf", true, true⟩

/-- Load environment in which artifact resolution raises for both tiers. -/
def envAllFail : LoadEnv :=
  ⟨.error "download failed", .error "download failed", false, false⟩

/-! Theorems. Helper lemmas come first, then one theorem per claim. -/

/-- A character that occurs nowhere in the input has no first index. -/
theorem pyFindIdx_eq_none_of_not_mem {c : Char} {l : List Char} (h : c ∉ l) :
    pyFindIdx c l = none := by
  unfold pyFindIdx
  rw [List.findIdx?_eq_none_iff]
  intro x hx
  simp only [decide_eq_false_iff_not]
  intro hxc
  exact h (hxc ▸ hx)

/-- C7: output normalization — `_parse_local_response` extracts the
substring from the first opening brace to the last closing brace and parses
it as JSON, so the quoted noisy example yields exactly
{overall_description: "apple"}; and whenever extraction fails (no opening
brace) or parsing fails, it returns, without raising, the degraded result
holding the first 200 characters of the text plus "..." and the explicit
note flagging the parsing fallback. -/
theorem c7_output_normalization :
    (_parse_local_response
        ("noise \x7b \"overall_description\": \"apple\" \x7d trailing".data)
        = .jobj [("overall_description", .jstr "apple")]) ∧
    (∀ content : List Char, lbrace ∉ content →
        _parse_local_response content =
          .jobj [("overall_description", .jstr (String.mk (content.take 200) ++ "...")),
                 ("total_calories_estimate", .jstr "Estimated"),
                 ("items", .jarr []),
                 ("note", .jstr "Raw output returned due to parsing error.")]) ∧
    (∀ content start, pyFindIdx lbrace content = some start →
        jsonLoads (pySlice content start (braceEnd content)) = none →
        _parse_local_response content = parseLocalFallback content) := by
  refine ⟨rfl, ?_, ?_⟩
  · intro content h
    unfold _parse_local_response
    rw [pyFindIdx_eq_none_of_not_mem h]
    exact rfl
  · intro content start h1 h2
    unfold _parse_local_response
    simp only [h1, h2]

/-- Witness for C7 at the concrete brace-free input "hello". -/
theorem c7_output_normalization_witness :
    _parse_local_response "hello".data =
      .jobj [("overall_description", .jstr (String.mk ("hello".data.take 200) ++ "...")),
             ("total_calories_estimate", .jstr "Estimated"),
             ("items", .jarr []),
             ("note", .jstr "Raw output returned due to parsing error.")] :=
  c7_output_normalization.2.1 "hello".data (by decide)

/-- C8: missing-credential short-circuit — whatever the rest of the
configuration, the oracle and the query, a client with no API key returns
the "API Key missing" error dict with zero throttle interactions and zero
network attempts (and, being a total function, without raising). -/
theorem c8_missing_credential (cfg : SerpAPIWrapperCfg) (oracle : Nat → HttpOutcome)
    (query : String) :
    search_food_info { cfg with api_key := none } oracle query
      = (.jobj [("error", .jstr "API Key missing")], ⟨0, 0, []⟩) := rfl

/-- Under an all-429 oracle the retry loop issues one attempt per remaining
retry plus the final one, returns the 429 status error, and sleeps the
schedule obtained by multiplying the backoff by the factor before each
sleep. -/
theorem retryLoop_all429 (cfg : SerpAPIWrapperCfg) (oracle : Nat → HttpOutcome) (body : JVal)
    (hs : ∀ i, oracle i = .response 429 body) :
    ∀ remaining attempt backoff,
      retryLoop cfg oracle remaining attempt backoff
        = (.error (statusErrMsg 429),
           ⟨remaining + 1, remaining + 1,
            backoffSchedule backoff cfg.backoff_factor remaining⟩) := by
  intro remaining
  induction remaining with
  | zero =>
    intro attempt backoff
    rw [retryLoop, hs attempt]
    rfl
  | succ r ih =>
    intro attempt backoff
    rw [retryLoop, hs attempt]
    simp only [backoffSchedule, ih]
    rfl

/-- On a transport error the retry loop stops after the current attempt,
whatever the retry budget. -/
theorem retryLoop_transport (cfg : SerpAPIWrapperCfg) (oracle : Nat → HttpOutcome)
    (remaining attempt : Nat) (backoff : ℚ) (msg : String)
    (hs : oracle attempt = .transportError msg) :
    retryLoop cfg oracle remaining attempt backoff = (.error msg, ⟨1, 1, []⟩) := by
  cases remaining <;> rw [retryLoop, hs]

/-- On a non-429 error status the retry loop raises immediately, whatever
the retry budget. -/
theorem retryLoop_status_error (cfg : SerpAPIWrapperCfg) (oracle : Nat → HttpOutcome)
    (remaining attempt : Nat) (backoff : ℚ) (status : Nat) (body : JVal)
    (hs : oracle attempt = .response status body) (h429 : ¬ status = 429)
    (h400 : 400 ≤ status) :
    retryLoop cfg oracle remaining attempt backoff
      = (.error (statusErrMsg status), ⟨1, 1, []⟩) := by
  cases remaining <;> (rw [retryLoop, hs]; simp [h429, h400])

/-- C5 (amended): with max_retries = 2 and every attempt answered 429,
`search_food_info` makes exactly 3 network attempts and returns an error
dict; the backoff is multiplied by backoff_factor *before* each sleep, so
the observed delays are min_interval*backoff_factor and
min_interval*backoff_factor^2; any non-429 HTTP status error and any
transport error fail on the first attempt without retry. -/
theorem c5_retry_and_backoff (cfg : SerpAPIWrapperCfg) (key query : String) (body : JVal)
    (hkey : cfg.api_key = some key) (hretries : cfg.max_retries = 2) :
    ((search_food_info cfg (fun _ => .response 429 body) query).2.net_attempts = 3 ∧
     isErrorResult (search_food_info cfg (fun _ => .response 429 body) query).1 = true ∧
     (search_food_info cfg (fun _ => .response 429 body) query).2.backoff_sleeps
        = [cfg.min_interval * cfg.backoff_factor,
           cfg.min_interval * cfg.backoff_factor * cfg.backoff_factor]) ∧
    (∀ status body2, 400 ≤ status → ¬ status = 429 →
      (search_food_info cfg (fun _ => .response status body2) query).2.net_attempts = 1 ∧
      isErrorResult (search_food_info cfg (fun _ => .response status body2) query).1 = true) ∧
    (∀ msg, (search_food_info cfg (fun _ => .transportError msg) query).2.net_attempts = 1 ∧
      isErrorResult (search_food_info cfg (fun _ => .transportError msg) query).1 = true) := by
  refine ⟨?_, ?_, ?_⟩
  · have h := retryLoop_all429 cfg (fun _ => .response 429 body) body (fun _ => rfl)
      cfg.max_retries 0 cfg.min_interval
    unfold search_food_info
    rw [hretries] at h
    rw [hkey, hretries, h]
    exact ⟨rfl, rfl, rfl⟩
  · intro status body2 h400 h429
    unfold search_food_info
    rw [hkey, retryLoop_status_error cfg (fun _ => .response status body2)
      cfg.max_retries 0 cfg.min_interval status body2 rfl h429 h400]
    exact ⟨rfl, rfl⟩
  · intro msg
    unfold search_food_info
    rw [hkey, retryLoop_transport cfg (fun _ => .transportError msg)
      cfg.max_retries 0 cfg.min_interval msg rfl]
    exact ⟨rfl, rfl⟩

/-- Witness for C5 (amended) at min_interval = 1, backoff_factor = 2,
max_retries = 2 and an all-429 oracle. -/
theorem c5_retry_and_backoff_witness :
    (search_food_info ⟨some "k", 1, 2, 2⟩ (fun _ => .response 429 (.jobj []))
        "banana").2.net_attempts = 3 ∧
    isErrorResult (search_food_info ⟨some "k", 1, 2, 2⟩ (fun _ => .response 429 (.jobj []))
        "banana").1 = true ∧
    (search_food_info ⟨some "k", 1, 2, 2⟩ (fun _ => .response 429 (.jobj []))
        "banana").2.backoff_sleeps = [(1 : ℚ) * 2, (1 : ℚ) * 2 * 2] :=
  (c5_retry_and_backoff ⟨some "k", 1, 2, 2⟩ "k" "banana" (.jobj []) rfl rfl).1

/-- C5 fails as stated: with min_interval = 1, backoff_factor = 2,
max_retries = 2 and every attempt answered 429, the observed backoff sleeps
are [2, 4], not the claimed [min_interval, min_interval*backoff_factor]
= [1, 2] — the code multiplies the backoff by the factor before the first
sleep. -/
theorem c5_backoff_schedule_counterexample :
    (search_food_info ⟨some "k", 1, 2, 2⟩ (fun _ => .response 429 (.jobj []))
        "apple").2.backoff_sleeps = [2, 4] ∧
    ¬ (search_food_info ⟨some "k", 1, 2, 2⟩ (fun _ => .response 429 (.jobj []))
        "apple").2.backoff_sleeps = [1, 2] := by
  have h : (search_food_info ⟨some "k", 1, 2, 2⟩ (fun _ => .response 429 (.jobj []))
      "apple").2.backoff_sleeps = [(1 : ℚ) * 2, (1 : ℚ) * 2 * 2] := by
    have h2 := retryLoop_all429 ⟨some "k", 1, 2, 2⟩ (fun _ => .response 429 (.jobj []))
      (.jobj []) (fun _ => rfl) 2 0 1
    unfold search_food_info
    rw [show (⟨some "k", 1, 2, 2⟩ : SerpAPIWrapperCfg).max_retries = 2 from rfl,
      show (⟨some "k", 1, 2, 2⟩ : SerpAPIWrapperCfg).min_interval = 1 from rfl, h2]
    rfl
  rw [h]
  constructor
  · norm_num
  · intro hc
    rw [List.cons.injEq] at hc
    norm_num at hc

/-- Looking up the key just written at the front of the cache hits it. -/
theorem lookup_cons_self (q : String) (v : JVal) (c : SearchCache) :
    List.lookup q ((q, v) :: c) = some v := by
  simp [List.lookup]

/-- After any `cachedSearch` call, the query just looked up sits at the
front of the returned cache, bound to the value just returned. -/
theorem cachedSearch_cache_head (cfg : SerpAPIWrapperCfg) (oracle : Nat → HttpOutcome)
    (cache : SearchCache) (query : String) :
    (cachedSearch cfg oracle cache query).2.1
      = (query, (cachedSearch cfg oracle cache query).1)
          :: ((cachedSearch cfg oracle cache query).2.1).tail := by
  unfold cachedSearch
  cases h : List.lookup query cache with
  | some v => simp
  | none =>
    obtain ⟨v, tr⟩ := search_food_info cfg oracle query
    simp [List.take_succ_cons]

/-- A cache whose front entry is the query is hit: stored value returned,
no body run, the entry marked most recently used. -/
theorem cachedSearch_hit (cfg : SerpAPIWrapperCfg) (oracle : Nat → HttpOutcome)
    (q : String) (v : JVal) (rest : SearchCache) :
    cachedSearch cfg oracle ((q, v) :: rest) q
      = (v, (q, v) :: ((q, v) :: rest).filter (fun p => ¬ p.1 = q), ⟨0, 0, []⟩) := by
  unfold cachedSearch
  rw [lookup_cons_self]

/-- C4 (amended): the cache memoizes every completed lookup — successes and
error dicts alike. Immediately repeating any query returns the stored
result with zero throttle interactions and zero network attempts; in
particular a failed (error-result) lookup is not retried while its entry
is cached. -/
theorem c4_cache_memoizes_all_results (cfg : SerpAPIWrapperCfg) (oracle : Nat → HttpOutcome)
    (cache : SearchCache) (query : String) :
    (cachedSearch cfg oracle (cachedSearch cfg oracle cache query).2.1 query).1
        = (cachedSearch cfg oracle cache query).1 ∧
    (cachedSearch cfg oracle (cachedSearch cfg oracle cache query).2.1 query).2.2
        = ⟨0, 0, []⟩ := by
  rw [cachedSearch_cache_head cfg oracle cache query, cachedSearch_hit]
  exact ⟨rfl, rfl⟩

/-- C4 fails as stated: with a transport error answering every attempt, the
first lookup returns the error dict after one network attempt, and a second
lookup for the same query is served from the cache — zero throttle calls
and zero network attempts, returning the cached error dict — instead of
issuing the claimed new network attempt. -/
theorem c4_failed_lookup_cached_counterexample :
    isErrorResult (cachedSearch ⟨some "k", 0, 0, 1⟩
        (fun _ => .transportError "connection refused") [] "apple").1 = true ∧
    (cachedSearch ⟨some "k", 0, 0, 1⟩
        (fun _ => .transportError "connection refused") [] "apple").2.2.net_attempts = 1 ∧
    (cachedSearch ⟨some "k", 0, 0, 1⟩ (fun _ => .transportError "connection refused")
        (cachedSearch ⟨some "k", 0, 0, 1⟩
          (fun _ => .transportError "connection refused") [] "apple").2.1
        "apple").2.2 = ⟨0, 0, []⟩ ∧
    (cachedSearch ⟨some "k", 0, 0, 1⟩ (fun _ => .transportError "connection refused")
        (cachedSearch ⟨some "k", 0, 0, 1⟩
          (fun _ => .transportError "connection refused") [] "apple").2.1
        "apple").1
      = (cachedSearch ⟨some "k", 0, 0, 1⟩
          (fun _ => .transportError "connection refused") [] "apple").1 :=
  ⟨rfl, rfl, rfl, rfl⟩

/-- The stamp written by `_throttle` is always at least `min_interval`
after the previous stamp. -/
theorem throttleStamp_ge (m last now : ℚ) : last + m ≤ throttleStamp m last now := by
  by_cases h : 0 < m - (now - last)
  · simp only [throttleStamp, if_pos h]
    linarith
  · simp only [throttleStamp, if_neg h]
    linarith [not_lt.mp h]

/-- The first attempt of a throttled run is issued at least `min_interval`
after the previous stamp. -/
theorem throttleTimes_head_ge (m last now : ℚ) (ds : List ℚ) :
    ∀ t ∈ (throttleTimes m last now ds).head?, last + m ≤ t := by
  cases ds with
  | nil => intro t ht; simp [throttleTimes] at ht
  | cons d ds =>
    intro t ht
    simp only [throttleTimes, List.head?_cons, Option.mem_def, Option.some.injEq] at ht
    exact ht ▸ throttleStamp_ge m last now

/-- C6: throttle spacing — along any serialized sequence of throttled
outbound attempts through one client instance (each attempt preceded by
`_throttle`, which stamps `_last_request_ts` under the lock; arbitrary
delays elapse between attempts, covering retries and interleaved callers),
every two consecutive attempt issue times are at least `min_interval`
apart. -/
theorem c6_throttle_spacing (min_interval last now : ℚ) (ds : List ℚ) :
    List.Chain' (fun a b => a + min_interval ≤ b)
      (throttleTimes min_interval last now ds) := by
  induction ds generalizing last now with
  | nil => simp [throttleTimes]
  | cons d ds ih =>
    rw [throttleTimes]
    exact List.chain'_cons'.mpr
      ⟨throttleTimes_head_ge min_interval (throttleStamp min_interval last now) _ ds,
       ih _ _⟩

/-- Projecting a list of organic-result dicts succeeds and yields exactly
the {title, snippet, link} snippets in order. -/
theorem projList_obj (ls : List (List (String × JVal))) :
    projList (ls.map JVal.jobj) = .ok (ls.map projFields) := by
  induction ls with
  | nil => rfl
  | cons l ls ih => simp [projList, projOrganicResult, ih]

/-- C9: result-shaping projection — for a successful payload (a dict whose
organic_results, when present, is a list of dicts), the returned mapping
has exactly the two keys snippets and knowledge_graph: the knowledge_graph
block of the payload (empty dict when absent), and the first at-most-3
organic results each reduced to exactly {title, snippet, link}; no other
payload field is retained. -/
theorem c9_result_shaping (fields : List (String × JVal)) :
    (∀ orgs : List (List (String × JVal)),
      fields.lookup "organic_results" = some (.jarr (orgs.map JVal.jobj)) →
      shapeResults (.jobj fields)
        = .ok (.jobj [("snippets", .jarr ((orgs.take 3).map projFields)),
                      ("knowledge_graph",
                       (fields.lookup "knowledge_graph").getD (.jobj []))])) ∧
    (fields.lookup "organic_results" = none →
      shapeResults (.jobj fields)
        = .ok (.jobj [("snippets", .jarr []),
                      ("knowledge_graph",
                       (fields.lookup "knowledge_graph").getD (.jobj []))])) := by
  constructor
  · intro orgs h
    simp only [shapeResults, h, ← List.map_take, projList_obj]
  · intro h
    simp only [shapeResults, h]

/-- Witness for C9 at a concrete payload with four organic results and a
knowledge-graph block. -/
theorem c9_result_shaping_witness :
    shapeResults (.jobj [("search_metadata", .jstr "dropped"),
        ("organic_results", .jarr [.jobj [("title", .jstr "t1"), ("snippet", .jstr "s1"),
                                          ("link", .jstr "l1"), ("position", .jnum 1)],
                                   .jobj [("title", .jstr "t2")],
                                   .jobj [],
                                   .jobj [("title", .jstr "t4")]]),
        ("knowledge_graph", .jobj [("name", .jstr "apple")])])
      = .ok (.jobj [("snippets", .jarr
          [.jobj [("title", .jstr "t1"), ("snippet", .jstr "s1"), ("link", .jstr "l1")],
           .jobj [("title", .jstr "t2"), ("snippet", .jnull), ("link", .jnull)],
           .jobj [("title", .jnull), ("snippet", .jnull), ("link", .jnull)]]),
          ("knowledge_graph", .jobj [("name", .jstr "apple")])]) :=
  (c9_result_shaping [("search_metadata", .jstr "dropped"),
      ("organic_results", .jarr [.jobj [("title", .jstr "t1"), ("snippet", .jstr "s1"),
                                        ("link", .jstr "l1"), ("position", .jnum 1)],
                                 .jobj [("title", .jstr "t2")],
                                 .jobj [],
                                 .jobj [("title", .jstr "t4")]]),
      ("knowledge_graph", .jobj [("name", .jstr "apple")])]).1
    [[("title", .jstr "t1"), ("snippet", .jstr "s1"), ("link", .jstr "l1"),
      ("position", .jnum 1)],
     [("title", .jstr "t2")], [], [("title", .jstr "t4")]] rfl

/-- `_load_model` preserves single-slot residency, whether it succeeds or
raises. -/
theorem _load_model_preserves (env : LoadEnv) (s : LIState) (t : ModelType)
    (h : atMostOneResident s) : atMostOneResident (_load_model env s t).1 := by
  cases t with
  | light =>
    cases hl : s.light_model with
    | some eng => simpa [_load_model, hl] using h
    | none =>
      cases hp : env.light_path with
      | error e => simp [_load_model, hl, hp, atMostOneResident]
      | ok path =>
        by_cases hc : env.light_construct_ok <;>
          simp [_load_model, hl, hp, hc, atMostOneResident]
  | heavy =>
    cases hh : s.heavy_model with
    | some eng => simpa [_load_model, hh] using h
    | none =>
      cases hp : env.heavy_path with
      | error e => simp [_load_model, hh, hp, atMostOneResident]
      | ok path =>
        by_cases hc : env.heavy_construct_ok <;>
          simp [_load_model, hh, hp, hc, atMostOneResident]

/-- Loading the light tier while it is resident is a successful no-op. -/
theorem _load_model_noop_light (env : LoadEnv) (s : LIState)
    (h : s.light_model.isSome) : _load_model env s .light = (s, .ok ()) := by
  simp [_load_model, h]

/-- Loading the heavy tier while it is resident is a successful no-op. -/
theorem _load_model_noop_heavy (env : LoadEnv) (s : LIState)
    (h : s.heavy_model.isSome) : _load_model env s .heavy = (s, .ok ()) := by
  simp [_load_model, h]

/-- After a successful heavy load from a single-slot state, the heavy slot
is resident and the light slot is empty. -/
theorem _load_model_heavy_ok (env : LoadEnv) (s s1 : LIState)
    (hinv : atMostOneResident s) (h : _load_model env s .heavy = (s1, .ok ())) :
    s1.heavy_model.isSome = true ∧ s1.light_model = none := by
  cases hh : s.heavy_model with
  | some eng =>
    rw [_load_model_noop_heavy env s (by simp [hh])] at h
    injection h with h1 h2
    subst h1
    rcases hinv with hl | hn
    · exact ⟨by simp [hh], hl⟩
    · rw [hh] at hn; exact absurd hn (by simp)
  | none =>
    cases hp : env.heavy_path with
    | error e => simp [_load_model, hh, hp] at h
    | ok path =>
      by_cases hc : env.heavy_construct_ok
      · simp only [_load_model, hh, Option.isSome_none, Bool.false_eq_true, if_false,
          hp, hc, if_true] at h
        injection h with h1 h2
        subst h1
        exact ⟨rfl, rfl⟩
      · simp [_load_model, hh, hp, hc] at h

/-- After a successful light load from a single-slot state, the light slot
is resident and the heavy slot is empty. -/
theorem _load_model_light_ok (env : LoadEnv) (s s1 : LIState)
    (hinv : atMostOneResident s) (h : _load_model env s .light = (s1, .ok ())) :
    s1.light_model.isSome = true ∧ s1.heavy_model = none := by
  cases hl : s.light_model with
  | some eng =>
    rw [_load_model_noop_light env s (by simp [hl])] at h
    injection h with h1 h2
    subst h1
    rcases hinv with hn | hh
    · rw [hl] at hn; exact absurd hn (by simp)
    · exact ⟨by simp [hl], hh⟩
  | none =>
    cases hp : env.light_path with
    | error e => simp [_load_model, hl, hp] at h
    | ok path =>
      by_cases hc : env.light_construct_ok
      · simp only [_load_model, hl, Option.isSome_none, Bool.false_eq_true, if_false,
          hp, hc, if_true] at h
        injection h with h1 h2
        subst h1
        exact ⟨rfl, rfl⟩
      · simp [_load_model, hl, hp, hc] at h

/-- `analyze_image` mutates the slots exactly as its `_load_model` call. -/
theorem analyze_image_fst (env : LoadEnv) (inference : Except String String)
    (s : LIState) (d : Bool) :
    (analyze_image env inference s d).1 = (_load_model env s (targetTier d)).1 := by
  unfold analyze_image
  cases h : (_load_model env s (targetTier d)).2 <;> cases inference <;> simp [h]

/-- Every client call preserves single-slot residency. -/
theorem stepOp_preserves (s : LIState) (op : LIOp) (h : atMostOneResident s) :
    atMostOneResident (stepOp s op) := by
  cases op with
  | loadOp t env => exact _load_model_preserves env s t h
  | analyzeOp d env inf =>
    show atMostOneResident (analyze_image env inf s d).1
    rw [analyze_image_fst]
    exact _load_model_preserves env s (targetTier d) h

/-- Single-slot residency holds after any call sequence from a fresh
client. -/
theorem execOps_invariant (ops : List LIOp) : atMostOneResident (execOps ops) := by
  unfold execOps
  have key : ∀ s, atMostOneResident s → atMostOneResident (ops.foldl stepOp s) := by
    induction ops with
    | nil => intro s h; simpa using h
    | cons op ops ih =>
      intro s h
      rw [List.foldl_cons]
      exact ih _ (stepOp_preserves s op h)
  exact key initState (Or.inl rfl)

/-- C1: single-slot residency — along every sequence of `_load_model` /
`analyze_image` calls from a fresh client, at most one of
{light_model, heavy_model} is non-None; after any successful heavy load
the light slot is None and vice versa; and loading an already-resident
tier is a successful no-op. -/
theorem c1_single_slot_residency :
    (∀ ops : List LIOp, atMostOneResident (execOps ops)) ∧
    (∀ env s s1, atMostOneResident s → _load_model env s .heavy = (s1, .ok ()) →
        s1.light_model = none) ∧
    (∀ env s s1, atMostOneResident s → _load_model env s .light = (s1, .ok ()) →
        s1.heavy_model = none) ∧
    (∀ env s, s.light_model.isSome → _load_model env s .light = (s, .ok ())) ∧
    (∀ env s, s.heavy_model.isSome → _load_model env s .heavy = (s, .ok ())) :=
  ⟨execOps_invariant,
   fun env s s1 hinv h => (_load_model_heavy_ok env s s1 hinv h).2,
   fun env s s1 hinv h => (_load_model_light_ok env s s1 hinv h).2,
   _load_model_noop_light,
   _load_model_noop_heavy⟩

/-- Witness for C1: a light load followed by a heavy load keeps the
invariant, and the successful heavy load from a fresh client leaves the
light slot empty. -/
theorem c1_single_slot_residency_witness :
    atMostOneResident (execOps [LIOp.loadOp .light envAllOk, LIOp.loadOp .heavy envAllOk]) ∧
    (⟨none, some ⟨"heavy.gguf", 4096, 0, true⟩⟩ : LIState).light_model = none :=
  ⟨c1_single_slot_residency.1 [LIOp.loadOp .light envAllOk, LIOp.loadOp .heavy envAllOk],
   c1_single_slot_residency.2.1 envAllOk initState
     ⟨none, some ⟨"heavy.gguf", 4096, 0, true⟩⟩ (Or.inl rfl) rfl⟩

/-- A successful `analyze_image` implies its `_load_model` call succeeded
with the same resulting state. -/
theorem analyze_image_ok_load (env : LoadEnv) (inference : Except String String)
    (s : LIState) (d : Bool) (s1 : LIState) (v : JVal)
    (h : analyze_image env inference s d = (s1, .ok v)) :
    _load_model env s (targetTier d) = (s1, .ok ()) := by
  unfold analyze_image at h
  rcases hp : _load_model env s (targetTier d) with ⟨s2, r⟩
  rw [hp] at h
  cases r with
  | error e => simp at h
  | ok u =>
    cases u
    cases inference with
    | error msg =>
      simp only [Prod.mk.injEq, Except.ok.injEq] at h
      rw [h.1]
    | ok content =>
      simp only [Prod.mk.injEq, Except.ok.injEq] at h
      rw [h.1]

/-- C2: tier-preserving failover — the dispatcher is modelled from the spec
(`app/core/vision.py` is absent from the sources): whenever the primary
path fails and the dispatcher returns a successful result, that result is
exactly the local path run with the request's own deep_search flag, and the
resulting state holds the matching tier (deep→heavy, fast→light) with the
opposite slot unloaded — never the opposite tier. -/
theorem c2_tier_preserving_failover (e : String) (env : LoadEnv)
    (inference : Except String String) (s : LIState) (deep_search : Bool)
    (hinv : atMostOneResident s) :
    ∀ s1 v, analyze_food_image_with_search (.error e) env inference s deep_search
        = (s1, .ok v) →
      analyze_image env inference s deep_search = (s1, .ok v) ∧
      (deep_search = true → s1.heavy_model.isSome = true ∧ s1.light_model = none) ∧
      (deep_search = false → s1.light_model.isSome = true ∧ s1.heavy_model = none) := by
  intro s1 v h
  unfold analyze_food_image_with_search at h
  rcases ha : analyze_image env inference s deep_search with ⟨s2, r⟩
  rw [ha] at h
  cases r with
  | error e2 => simp at h
  | ok v2 =>
    simp only [Prod.mk.injEq, Except.ok.injEq] at h
    obtain ⟨h1, h2⟩ := h
    subst h1
    subst h2
    refine ⟨rfl, ?_, ?_⟩
    · intro hd
      subst hd
      exact _load_model_heavy_ok env s _ hinv
        (analyze_image_ok_load env inference s true _ _ ha)
    · intro hd
      subst hd
      exact _load_model_light_ok env s _ hinv
        (analyze_image_ok_load env inference s false _ _ ha)

/-- Witness for C2: a deep request whose cloud path is down falls back to
the heavy local tier, leaving the heavy slot resident and the light slot
empty. -/
theorem c2_tier_preserving_failover_witness :
    analyze_image envAllOk (.error "inference down") initState true
      = (⟨none, some ⟨"heavy.gguf", 4096, 0, true⟩⟩, .ok emergencyFallback) ∧
    ((true = true →
      (⟨none, some ⟨"heavy.gguf", 4096, 0, true⟩⟩ : LIState).heavy_model.isSome = true ∧
      (⟨none, some ⟨"heavy.gguf", 4096, 0, true⟩⟩ : LIState).light_model = none) ∧
     (true = false →
      (⟨none, some ⟨"heavy.gguf", 4096, 0, true⟩⟩ : LIState).light_model.isSome = true ∧
      (⟨none, some ⟨"heavy.gguf", 4096, 0, true⟩⟩ : LIState).heavy_model = none)) :=
  c2_tier_preserving_failover "Cloud API Down" envAllOk (.error "inference down")
    initState true (Or.inl rfl) ⟨none, some ⟨"heavy.gguf", 4096, 0, true⟩⟩
    emergencyFallback rfl

/-- C3: terminal failure distinguishability — the dispatcher is modelled
from the spec (`app/core/vision.py` is absent from the sources): whenever
the primary path fails and the local fallback also raises, the dispatcher
fails with the single distinguished HTTPException(500, "All AI systems
failed") and returns no partial result. -/
theorem c3_all_systems_failed (ep : String) (env : LoadEnv)
    (inference : Except String String) (s : LIState) (deep_search : Bool) (el : String)
    (h : (analyze_image env inference s deep_search).2 = .error el) :
    (analyze_food_image_with_search (.error ep) env inference s deep_search).2
      = .error ⟨500, "All AI systems failed"⟩ := by
  unfold analyze_food_image_with_search
  simp only [h]

/-- Witness for C3: cloud down and both artifact downloads failing yield
the distinguished 500 "All AI systems failed" outcome. -/
theorem c3_all_systems_failed_witness :
    (analyze_food_image_with_search (.error "Cloud Down") envAllFail (.ok "irrelevant")
        initState false).2 = .error ⟨500, "All AI systems failed"⟩ :=
  c3_all_systems_failed "Cloud Down" envAllFail (.ok "irrelevant") initState false
    "download failed" rfl

/-- C10: once the requested tier's model has loaded, `analyze_image` never
propagates an exception — the local path raises exactly when `_load_model`
raises (artifact download or engine construction failure); a failing
chat-completion call is swallowed into the fixed emergency-fallback dict;
a successful one is normalized by `_parse_local_response` without
raising. -/
theorem c10_inference_failures_swallowed (env : LoadEnv)
    (inference : Except String String) (s : LIState) (deep_search : Bool) :
    ((∃ e, (analyze_image env inference s deep_search).2 = .error e) ↔
      (∃ e, (_load_model env s (targetTier deep_search)).2 = .error e)) ∧
    ((_load_model env s (targetTier deep_search)).2 = .ok () →
      (∀ msg, inference = .error msg →
        (analyze_image env inference s deep_search).2 = .ok emergencyFallback) ∧
      (∀ content, inference = .ok content →
        (analyze_image env inference s deep_search).2
          = .ok (_parse_local_response content.data))) := by
  unfold analyze_image
  rcases hp : _load_model env s (targetTier deep_search) with ⟨s2, r⟩
  cases r with
  | error e =>
    refine ⟨by simp, ?_⟩
    intro hok
    simp at hok
  | ok u =>
    cases u
    refine ⟨by cases inference <;> simp, ?_⟩
    intro _
    refine ⟨?_, ?_⟩
    · intro msg hmsg
      subst hmsg
      simp
    · intro content hcontent
      subst hcontent
      simp

/-- Witness for C10: with the artifacts resolving and the engine built, a
crashing chat-completion call yields the emergency-fallback dict. -/
theorem c10_inference_failures_swallowed_witness :
    (analyze_image envAllOk (.error "GPU OOM") initState false).2
      = .ok emergencyFallback :=
  ((c10_inference_failures_swallowed envAllOk (.error "GPU OOM") initState false).2
    rfl).1 "GPU OOM" rfl

end FoodAraise
